import Mathlib

/-!
Verification development for the google-agentic repository.

The repository contains a React client (`src/google-agentic-fe/.../App.tsx`)
talking to a query-orchestration backend. The client code is embedded
shallowly below: JSON payloads become an inductive `Json` type following
JavaScript truthiness, and each handler of `App.tsx` becomes a pure function
from client state and fetch outcome to client state. The backend engine
(orchestrator, conversation store, auth gate, capability dispatcher) is not
part of the available sources, so it is modelled from the specification where
a claim needs it; those definitions carry a doc comment starting with
`Modelled from the spec:`.
-/

/-- JSON values as seen by the client. JavaScript `undefined` resulting from a
missing property access is represented by `Json.null`, which has the same
falsiness. -/
inductive Json where
  | null
  | bool (b : Bool)
  | num (n : Int)
  | str (s : String)
  | arr (elems : List Json)
  | obj (fields : List (String × Json))
deriving Repr, BEq

/-- Property access `j[k]` on a JSON value: a lookup on objects, `null`
(i.e. JavaScript `undefined`) on anything else. -/
def Json.getField : Json → String → Json
  | .obj fields, k => (fields.lookup k).getD .null
  | _, _ => .null

/-- JavaScript truthiness of a JSON value (`null`, `false`, `0` and `""` are
falsy; arrays and objects, even empty, are truthy). -/
def Json.truthy : Json → Bool
  | .null => false
  | .bool b => b
  | .num n => n != 0
  | .str s => s != ""
  | .arr _ => true
  | .obj _ => true

/-- JavaScript `String(x)` coercion, as used when a JSON value is interpolated
into message text (flat rendering of compound values). -/
def Json.display : Json → String
  | .null => "null"
  | .bool b => if b then "true" else "false"
  | .num n => toString n
  | .str s => s
  | .arr _ => ""
  | .obj _ => "[object Object]"

/-- JavaScript `a || b` on JSON values: `a` when truthy, else `b`. -/
def Json.orElse (a b : Json) : Json :=
  if a.truthy then a else b

/-- JavaScript `String.prototype.trim`: drops leading and trailing
whitespace, modelled on the character list. -/
def jsTrim (s : String) : String :=
  ⟨((s.data.dropWhile Char.isWhitespace).reverse.dropWhile
      Char.isWhitespace).reverse⟩

/-- A chat message as held in the client's `messages` state
(interface `Message` of App.tsx: id, role, content.text, content.actions,
intent). -/
structure ClientMessage where
  id : String
  role : String
  text : String
  actions : Option (List Json)
  intent : Option Json
deriving Repr, BEq

/-- A conversation summary as held in the client's `conversations` state
(interface `Conversation` of App.tsx). -/
structure ClientConversation where
  id : String
  name : String
  created_at : String
  updated_at : Option String
deriving Repr, BEq

/-- The client's `authStatus` state shape, with the exact field and service
names the client declares and consumes (App.tsx lines 42-46): `connected`,
`services.gmail`, `services.calendar`, `services.drive`, `user_email`. -/
structure ClientAuthStatus where
  connected : Bool
  gmail : Bool
  calendar : Bool
  drive : Bool
  user_email : Option String
deriving Repr, BEq

/-- The initial `authStatus` value (App.tsx lines 42-46). -/
def initialAuthStatus : ClientAuthStatus :=
  { connected := false, gmail := false, calendar := false, drive := false
    user_email := none }

/-- The client component state relevant to the handlers: `messages`, `input`,
`loading`, `authStatus`, `conversations`, `currentConversationId`. -/
structure ClientState where
  messages : List ClientMessage
  input : String
  loading : Bool
  authStatus : ClientAuthStatus
  conversations : List ClientConversation
  currentConversationId : Option String
deriving Repr, BEq

/-- JavaScript truthiness of the `currentConversationId` state variable
(`string | null`): `null` and the empty string are falsy. -/
def optStrTruthy : Option String → Bool
  | none => false
  | some s => s != ""

/-- The JSON value sent for `currentConversationId` in a request body. -/
def optStrToJson : Option String → Json
  | none => .null
  | some s => .str s

/-- An HTTP request issued by the client: method, path (relative to
`API_BASE`), optional JSON body. -/
structure FetchRequest where
  method : String
  path : String
  body : Option Json
deriving Repr, BEq

/-- The outcome of a fetch as the client observes it: an HTTP response with
its `ok` flag and parsed JSON body, or a thrown error (network failure or
unparseable body) with a message. -/
inductive FetchOutcome where
  | response (ok : Bool) (data : Json)
  | networkError (msg : String)
deriving Repr, BEq

/-- The `requires_auth` test of App.tsx line 189:
`data.detail?.requires_auth || data.requires_auth`. -/
def requiresAuthFlag (data : Json) : Bool :=
  ((data.getField "detail").getField "requires_auth").truthy
    || (data.getField "requires_auth").truthy

/-- The auth-prompt text of App.tsx lines 196-199:
`data.detail?.message || data.message || "Please connect your Google account to continue."`. -/
def authPromptText (data : Json) : String :=
  (((data.getField "detail").getField "message").orElse
    ((data.getField "message").orElse
      (.str "Please connect your Google account to continue."))).display

/-- The error text thrown at App.tsx line 204 and rendered by the catch
block: `Error: ` followed by `data.detail || "Request failed"`. -/
def requestFailedText (data : Json) : String :=
  "Error: " ++ ((data.getField "detail").orElse (.str "Request failed")).display

/-- The `actions` field of the assistant message built from a 200 response:
`data.actions_taken`, an array if present, otherwise absent. -/
def parseActions : Json → Option (List Json)
  | .arr xs => some xs
  | _ => none

/-- The `intent` field of the assistant message: `data.intent` when the
response object carries one. -/
def parseIntent (data : Json) : Option Json :=
  match data.getField "intent" with
  | .null => none
  | j => some j

/-- `sendMessage` of App.tsx (lines 163-235) as a pure transition: given the
component state, the string `Date.now().toString()` evaluates to, and the
fetch outcome, it returns the new state and the request sent (`none` when the
guard at line 164 short-circuits). -/
def sendMessage (s : ClientState) (now : String) (outcome : FetchOutcome) :
    ClientState × Option FetchRequest :=
  if jsTrim s.input = "" ∨ s.loading then (s, none)
  else
    let userMsg : ClientMessage :=
      { id := now, role := "user", text := s.input, actions := none, intent := none }
    let s1 : ClientState :=
      { s with messages := s.messages ++ [userMsg], input := "", loading := true }
    let req : FetchRequest :=
      { method := "POST", path := "/v1/query"
        body := some (.obj [("query", .str s.input),
                            ("conversation_id", optStrToJson s.currentConversationId)]) }
    let s2 : ClientState :=
      match outcome with
      | .networkError msg =>
          { s1 with messages := s1.messages ++
              [{ id := now, role := "assistant", text := "Error: " ++ msg
                 actions := none, intent := none }] }
      | .response ok data =>
          if ok then
            let assistantMsg : ClientMessage :=
              { id := now, role := "assistant"
                text := (data.getField "response").display
                actions := parseActions (data.getField "actions_taken")
                intent := parseIntent data }
            let s' := { s1 with messages := s1.messages ++ [assistantMsg] }
            if (data.getField "conversation_id").truthy
                ∧ ¬ optStrTruthy s.currentConversationId then
              { s' with currentConversationId := some (data.getField "conversation_id").display }
            else s'
          else
            if requiresAuthFlag data then
              { s1 with messages := s1.messages ++
                  [{ id := now, role := "assistant", text := authPromptText data
                     actions := none, intent := none }] }
            else
              { s1 with messages := s1.messages ++
                  [{ id := now, role := "assistant", text := requestFailedText data
                     actions := none, intent := none }] }
    ({ s2 with loading := false }, some req)

/-- `checkAuthStatus` of App.tsx (lines 68-80): the request it issues. -/
def authStatusRequest : FetchRequest :=
  { method := "GET", path := "/v1/auth/status", body := none }

/-- How the client consumes an auth-status payload: the fields it declares in
its state shape and dereferences (`authStatus.connected`,
`authStatus.services.gmail` / `.calendar` / `.drive`,
`authStatus.user_email`, App.tsx lines 42-46, 329, 363-371, 377, 565). -/
def authStatusOfJson (data : Json) : ClientAuthStatus :=
  { connected := (data.getField "connected").truthy
    gmail := ((data.getField "services").getField "gmail").truthy
    calendar := ((data.getField "services").getField "calendar").truthy
    drive := ((data.getField "services").getField "drive").truthy
    user_email :=
      match data.getField "user_email" with
      | .str s => some s
      | _ => none }

/-- `checkAuthStatus` as a state transition: on an ok response the payload
replaces `authStatus`; otherwise the state is unchanged. -/
def checkAuthStatus (s : ClientState) (outcome : FetchOutcome) :
    ClientState × FetchRequest :=
  match outcome with
  | .response true data => ({ s with authStatus := authStatusOfJson data }, authStatusRequest)
  | _ => (s, authStatusRequest)

/-- One message of a `GET /v1/conversations/id/messages` payload, as the
client reads it when rendering: `msg.id`, `msg.role`, `msg.content.text`,
`msg.content.actions`, `msg.intent`. -/
def parseClientMessage (j : Json) : ClientMessage :=
  { id := (j.getField "id").display
    role := (j.getField "role").display
    text := ((j.getField "content").getField "text").display
    actions := parseActions ((j.getField "content").getField "actions")
    intent := parseIntent j }

/-- `data.messages || []` of App.tsx line 106, element order preserved. -/
def parseMessages (j : Json) : List ClientMessage :=
  match j with
  | .arr xs => xs.map parseClientMessage
  | _ => []

/-- `loadConversationMessages` of App.tsx (lines 96-112): on ok, `messages`
becomes the returned list (in returned order, which is the order the render
loop at lines 463-530 displays) and the conversation becomes current; on a
non-ok response or error the state is unchanged. -/
def loadConversationMessages (s : ClientState) (conversationId : String)
    (outcome : FetchOutcome) : ClientState × FetchRequest :=
  let req : FetchRequest :=
    { method := "GET", path := "/v1/conversations/" ++ conversationId ++ "/messages"
      body := none }
  match outcome with
  | .response true data =>
      ({ s with messages := parseMessages (data.getField "messages")
                currentConversationId := some conversationId }, req)
  | _ => (s, req)

/-- `deleteConversation` of App.tsx (lines 114-133): on ok, the conversation
is filtered out of the list and, when it was current, the message view is
cleared and the current id reset; on a non-ok response or a thrown error the
state is unchanged. -/
def deleteConversationClient (s : ClientState) (conversationId : String)
    (outcome : FetchOutcome) : ClientState × FetchRequest :=
  let req : FetchRequest :=
    { method := "DELETE", path := "/v1/conversations/" ++ conversationId
      body := none }
  match outcome with
  | .response true _ =>
      let s1 := { s with conversations :=
        s.conversations.filter (fun c => c.id != conversationId) }
      if s.currentConversationId = some conversationId then
        ({ s1 with messages := [], currentConversationId := none }, req)
      else (s1, req)
  | _ => (s, req)

/-- `logout` of App.tsx (lines 139-156): on completion the auth status is
reset to the initial value and messages, conversations and the current id are
cleared. -/
def logoutClient (s : ClientState) : ClientState :=
  { s with authStatus := initialAuthStatus, messages := [],
           conversations := [], currentConversationId := none }

/-- Modelled from the spec: the closed set of workspace capability kinds
(spec sections 2, 9; the backend engine is not among the available sources). -/
inductive Capability where
  | mail
  | calendar
  | storage
deriving Repr, BEq, DecidableEq

/-- Modelled from the spec: `AuthStatus` — overall connected flag,
per-capability boolean map, optional authenticated user identifier
(spec section 3; backend auth gate not among the available sources). -/
structure AuthStatus where
  connected : Bool
  mail : Bool
  calendar : Bool
  storage : Bool
  userEmail : Option String
deriving Repr, BEq, DecidableEq

/-- Modelled from the spec: whether a capability is authorized in an
`AuthStatus` (spec section 4.1). -/
def authorizedFor (a : AuthStatus) : Capability → Bool
  | .mail => a.mail
  | .calendar => a.calendar
  | .storage => a.storage

/-- Modelled from the spec: the provider response consumed by
`completeAuthorization` — the authenticated identifier and the set of
granted capability scopes (spec section 4.1). -/
structure ProviderResponse where
  email : String
  grantsMail : Bool
  grantsCalendar : Bool
  grantsStorage : Bool
deriving Repr, BEq, DecidableEq

/-- Modelled from the spec: `completeAuthorization(session, provider response)
-> AuthStatus` — the session's authorization state becomes the status derived
from the provider response (spec section 4.1; backend auth gate not among the
available sources). -/
def completeAuthorization (_ : AuthStatus) (r : ProviderResponse) : AuthStatus :=
  { connected := true, mail := r.grantsMail, calendar := r.grantsCalendar
    storage := r.grantsStorage, userEmail := some r.email }

/-- Modelled from the spec: `revoke(session)` clears the session's
authorization state (spec section 4.1; backend auth gate not among the
available sources). -/
def revoke (_ : AuthStatus) : AuthStatus :=
  { connected := false, mail := false, calendar := false, storage := false
    userEmail := none }

/-- Modelled from the spec: `requireCapabilities(session, capabilities)`
fails with the set of missing capabilities when any requested capability is
not currently authorized; it never partially authorizes (spec section 4.1). -/
def requireCapabilities (a : AuthStatus) (caps : List Capability) :
    Except (List Capability) Unit :=
  let missing := caps.filter (fun c => !(authorizedFor a c))
  if missing.isEmpty then .ok () else .error missing

/-- Modelled from the spec: `Intent` — classification label, target
capability set, structured parameters, confidence score (spec section 3;
backend intent resolver not among the available sources). -/
structure Intent where
  intent : String
  services : List Capability
  params : List (String × String)
  confidence : ℚ
deriving Repr, BEq, DecidableEq

/-- Modelled from the spec: the outcome of one call to a capability client —
success, a transient/network-classified failure (retryable), an
authorization failure, or a validation failure (spec sections 4.3, 7). -/
inductive CallOutcome where
  | ok (description : String)
  | transient (err : String)
  | authFailure (err : String)
  | invalid (err : String)
deriving Repr, BEq, DecidableEq

/-- Modelled from the spec: `ActionResult` — per-capability outcome,
human-readable description, optional error detail, and an
authorization-failure marker distinguishable from a generic failure
(spec sections 3, 4.3). -/
structure ActionResult where
  capability : Capability
  success : Bool
  description : String
  error : Option String
  authFailure : Bool
deriving Repr, BEq, DecidableEq

/-- Modelled from the spec: folding one final call outcome into an
`ActionResult` for its capability (spec section 4.3). -/
def resultOf (c : Capability) : CallOutcome → ActionResult
  | .ok d => { capability := c, success := true, description := d
               error := none, authFailure := false }
  | .transient e => { capability := c, success := false, description := "failed"
                      error := some e, authFailure := false }
  | .authFailure e => { capability := c, success := false, description := "failed"
                        error := some e, authFailure := true }
  | .invalid e => { capability := c, success := false, description := "failed"
                    error := some e, authFailure := false }

/-- Modelled from the spec: a bounded retry loop around one capability call.
`oracle i` is the outcome of the i-th attempt; only transient failures are
retried, at most `retries` more times (spec sections 4.3, 5). -/
def attemptCall (oracle : Nat → CallOutcome) : Nat → Nat → CallOutcome
  | 0, i => oracle i
  | r + 1, i =>
    match oracle i with
    | .transient _ => attemptCall oracle r (i + 1)
    | o => o

/-- Modelled from the spec: the retry ceiling (small bounded retry count,
≤ 3 attempts, spec section 5). -/
def maxRetries : Nat := 2

/-- Modelled from the spec: `dispatch(intent, session) -> ordered sequence of
ActionResult` — one result per target capability, each individually marked
success or failure; a failure of one capability never aborts the others
(spec section 4.3; backend dispatcher not among the available sources). -/
def dispatch (intent : Intent) (oracle : Capability → Nat → CallOutcome) :
    List ActionResult :=
  intent.services.map (fun c => resultOf c (attemptCall (oracle c) maxRetries 0))

/-- Modelled from the spec: a persisted message — identity, role, text,
action-description list, creation timestamp (spec section 3; backend
conversation store not among the available sources). -/
structure StoreMessage where
  id : Nat
  role : String
  text : String
  actions : List String
  created_at : Nat
deriving Repr, BEq, DecidableEq

/-- Modelled from the spec: a persisted conversation — identity, owning user,
display name, ordered message history, timestamps (spec section 3). -/
structure StoredConversation where
  id : String
  owner : String
  name : String
  msgs : List StoreMessage
  created_at : Nat
  updated_at : Nat
deriving Repr, BEq, DecidableEq

/-- Modelled from the spec: the conversation store state — the conversations
plus a logical clock that assigns identities and creation timestamps
(spec section 4.4; backend store not among the available sources). -/
structure Store where
  convs : List StoredConversation
  clock : Nat
deriving Repr, BEq, DecidableEq

/-- Modelled from the spec: the store's not-found condition — a conversation
id that does not exist or does not belong to the owner is indistinguishable
from non-existence (spec section 4.4). -/
inductive StoreError where
  | notFound
deriving Repr, BEq, DecidableEq

/-- Whether a stored conversation matches a conversation id and owner. -/
def convMatches (cid owner : String) (c : StoredConversation) : Bool :=
  c.id == cid && c.owner == owner

/-- Modelled from the spec: looking a conversation up by id and owner. -/
def Store.findConv (s : Store) (cid owner : String) : Option StoredConversation :=
  s.convs.find? (convMatches cid owner)

/-- Modelled from the spec: `listMessages(conversationId) -> ordered sequence
of Message, creation order`; not-found when the id does not belong to the
owner (spec section 4.4). -/
def Store.listMessages (s : Store) (cid owner : String) :
    Except StoreError (List StoreMessage) :=
  match s.findConv cid owner with
  | some c => .ok c.msgs
  | none => .error .notFound

/-- Modelled from the spec: `appendMessage(conversationId, Message)` —
assigns id and creation timestamp from the store clock, appends at the end of
the history and updates the parent conversation's last-updated timestamp
atomically with the append (spec section 4.4). -/
def Store.appendMessage (s : Store) (cid owner role text : String)
    (actions : List String) : Except StoreError (Store × StoreMessage) :=
  match s.findConv cid owner with
  | none => .error .notFound
  | some _ =>
    let m : StoreMessage :=
      { id := s.clock, role := role, text := text, actions := actions
        created_at := s.clock }
    .ok ({ convs := s.convs.map (fun c =>
             if convMatches cid owner c then
               { c with msgs := c.msgs ++ [m], updated_at := s.clock }
             else c)
           clock := s.clock + 1 }, m)

/-- Modelled from the spec: `deleteConversation(conversationId, owner)` —
removes the conversation and all of its messages as a single atomic unit;
not-found when the id does not belong to the owner (spec section 4.4). -/
def Store.deleteConversation (s : Store) (cid owner : String) :
    Except StoreError Store :=
  match s.findConv cid owner with
  | none => .error .notFound
  | some _ =>
    .ok { s with convs := s.convs.filter (fun c => !(convMatches cid owner c)) }

/-- Modelled from the spec: `createConversation(owner)` — a fresh
conversation with an opaque id drawn from the clock and a display name
derived from the first user message (spec sections 3, 4.4). -/
def Store.createConversation (s : Store) (owner name : String) :
    Store × String :=
  let cid := "conv-" ++ toString s.clock
  ({ convs := s.convs ++
       [{ id := cid, owner := owner, name := name, msgs := []
          created_at := s.clock, updated_at := s.clock }]
     clock := s.clock + 1 }, cid)

/-- Well-formedness of a conversation against the store clock: all message
timestamps are in the past and the history is nondecreasing in creation
timestamp. -/
def convWF (clock : Nat) (c : StoredConversation) : Prop :=
  (∀ m ∈ c.msgs, m.created_at < clock) ∧
    List.Chain' (fun a b => a.created_at ≤ b.created_at) c.msgs

/-- Well-formedness of the store: every conversation is well-formed. -/
def Store.WF (s : Store) : Prop :=
  ∀ c ∈ s.convs, convWF s.clock c

/-- Modelled from the spec: the response envelope of `POST /query`
(spec section 6): natural-language response, action descriptions, the
requires-auth marker, and the conversation id of the persisted turn. -/
structure QueryResponse where
  response : String
  actionsTaken : List String
  requiresAuth : Bool
  conversationId : Option String
deriving Repr, BEq, DecidableEq

/-- Modelled from the spec: the natural-language summary the orchestrator
composes from the dispatch results, reflecting both successes and failures
(spec sections 4.3, 7). -/
def composeResponse (results : List ActionResult) : String :=
  String.intercalate "; "
    (results.map (fun r =>
      if r.success then r.description
      else "failed: " ++ (r.error.getD "unknown error")))

/-- Modelled from the spec: persisting one turn — the user message and the
assistant message are appended into the conversation (created first when no
conversation id was supplied or it is not found for this owner), atomically
from the point of view of any later observer of the store (spec sections 2,
4.4, 4.5). Returns the store and the conversation id of the turn. -/
def persistTurn (s : Store) (owner : String) (cid? : Option String)
    (userText assistantText : String) (actions : List String) :
    Store × String :=
  let (s0, cid) :=
    match cid? with
    | some cid => if (s.findConv cid owner).isSome then (s, cid)
                  else s.createConversation owner userText
    | none => s.createConversation owner userText
  let s1 := match s0.appendMessage cid owner "user" userText [] with
    | .ok (s', _) => s'
    | .error _ => s0
  let s2 := match s1.appendMessage cid owner "assistant" assistantText actions with
    | .ok (s', _) => s'
    | .error _ => s1
  (s2, cid)

/-- Modelled from the spec: the full result of one orchestrated query — the
store after the request, the dispatch results when dispatch happened
(`none` when it was skipped), and the response envelope (spec section 4.5). -/
structure QueryOutcome where
  store : Store
  dispatched : Option (List ActionResult)
  response : QueryResponse
deriving Repr, BEq, DecidableEq

/-- Modelled from the spec: the query orchestrator (spec sections 2, 4.5;
backend not among the available sources). It checks the auth gate for the
resolved intent's required capabilities; when any is missing it
short-circuits with a requires-auth response, echoing the raw query, with no
dispatch and no persistence. When the capability set is empty, dispatch is
skipped and a clarifying turn is persisted. Otherwise it dispatches and
persists the user and assistant messages of the turn. -/
def processQuery (s : Store) (auth : AuthStatus) (owner query : String)
    (cid? : Option String) (intent : Intent)
    (oracle : Capability → Nat → CallOutcome) : QueryOutcome :=
  match requireCapabilities auth intent.services with
  | .error _ =>
    { store := s
      dispatched := none
      response := { response := "Authorization required for: " ++ query
                    actionsTaken := [], requiresAuth := true
                    conversationId := cid? } }
  | .ok _ =>
    if intent.services.isEmpty then
      let clarify := "Could you clarify what you would like me to do?"
      let (s', cid) := persistTurn s owner cid? query clarify []
      { store := s'
        dispatched := none
        response := { response := clarify, actionsTaken := []
                      requiresAuth := false, conversationId := some cid } }
    else
      let results := dispatch intent oracle
      let text := composeResponse results
      let actions := results.map (·.description)
      let (s', cid) := persistTurn s owner cid? query text actions
      { store := s'
        dispatched := some results
        response := { response := text, actionsTaken := actions
                      requiresAuth := false, conversationId := some cid } }

/-- The message a successful append creates at the store's current clock. -/
def appendedMsg (s : Store) (role text : String) (actions : List String) :
    StoreMessage :=
  { id := s.clock, role := role, text := text, actions := actions
    created_at := s.clock }

/-- The conversation update a successful append performs. -/
def appendUpd (m : StoreMessage) (clk : Nat) (c : StoredConversation) :
    StoredConversation :=
  { c with msgs := c.msgs ++ [m], updated_at := clk }

/-- The store a successful append produces. -/
def appendStore (s : Store) (cid owner : String) (m : StoreMessage) : Store :=
  { convs := s.convs.map (fun d =>
      if convMatches cid owner d then appendUpd m s.clock d else d)
    clock := s.clock + 1 }

theorem find?_map_if {α : Type} (p : α → Bool) (upd : α → α)
    (hpres : ∀ a, p a = true → p (upd a) = true) :
    ∀ l : List α,
      (l.map (fun a => if p a then upd a else a)).find? p = (l.find? p).map upd
  | [] => rfl
  | a :: l => by
    by_cases h : p a = true
    · simp only [List.map_cons, if_pos h, List.find?_cons_of_pos _ (hpres a h),
        List.find?_cons_of_pos _ h, Option.map_some']
    · simp only [List.map_cons, if_neg h, List.find?_cons_of_neg _ h]
      exact find?_map_if p upd hpres l

theorem appendMessage_eq_ok {s : Store} {cid owner : String}
    {c : StoredConversation} (h : s.findConv cid owner = some c)
    (role text : String) (actions : List String) :
    s.appendMessage cid owner role text actions =
      .ok (appendStore s cid owner (appendedMsg s role text actions),
           appendedMsg s role text actions) := by
  simp only [Store.appendMessage, h, appendStore, appendUpd, appendedMsg]

theorem findConv_appendStore {s : Store} {cid owner : String}
    {c : StoredConversation} (h : s.findConv cid owner = some c)
    (m : StoreMessage) :
    (appendStore s cid owner m).findConv cid owner =
      some (appendUpd m s.clock c) := by
  simp only [Store.findConv, appendStore]
  rw [find?_map_if (convMatches cid owner) (appendUpd m s.clock)
    (fun a ha => ha)]
  rw [show s.convs.find? (convMatches cid owner) = some c from h]
  rfl

theorem listMessages_appendStore {s : Store} {cid owner : String}
    {c : StoredConversation} (h : s.findConv cid owner = some c)
    (m : StoreMessage) :
    (appendStore s cid owner m).listMessages cid owner = .ok (c.msgs ++ [m]) := by
  simp only [Store.listMessages, findConv_appendStore h m, appendUpd]

theorem convWF_mono {clk clk' : Nat} (h : clk ≤ clk') {c : StoredConversation}
    (hc : convWF clk c) : convWF clk' c :=
  ⟨fun m hm => lt_of_lt_of_le (hc.1 m hm) h, hc.2⟩

theorem convWF_append {clk : Nat} {c : StoredConversation} (hc : convWF clk c)
    (m : StoreMessage) (hm : m.created_at = clk) :
    convWF (clk + 1) (appendUpd m clk c) := by
  constructor
  · intro x hx
    rcases List.mem_append.1 hx with hx | hx
    · exact Nat.lt_succ_of_lt (hc.1 x hx)
    · have : x = m := by simpa using hx
      subst this
      omega
  · refine List.chain'_append.2 ⟨hc.2, List.chain'_singleton m, ?_⟩
    intro x hx y hy
    have hxm : x ∈ c.msgs := List.mem_of_mem_getLast? hx
    have hlt := hc.1 x hxm
    have : m = y := by simpa using hy
    subst this
    omega

theorem WF_appendStore {s : Store} (hWF : s.WF) (cid owner : String)
    {m : StoreMessage} (hm : m.created_at = s.clock) :
    (appendStore s cid owner m).WF := by
  intro c' hc'
  simp only [appendStore, List.mem_map] at hc'
  rcases hc' with ⟨d, hd, rfl⟩
  by_cases h : convMatches cid owner d = true
  · simp only [if_pos h]
    exact convWF_append (hWF d hd) m hm
  · simp only [if_neg h]
    exact convWF_mono (Nat.le_succ _) (hWF d hd)

theorem persistTurn_existing {s : Store} {owner cid : String}
    {c : StoredConversation} (h : s.findConv cid owner = some c)
    (ut asst : String) (acts : List String) :
    persistTurn s owner (some cid) ut asst acts =
      (appendStore (appendStore s cid owner (appendedMsg s "user" ut []))
        cid owner
        { id := s.clock + 1, role := "assistant", text := asst
          actions := acts, created_at := s.clock + 1 }, cid) := by
  have hsome : (s.findConv cid owner).isSome = true := by rw [h]; rfl
  have h1 := appendMessage_eq_ok h "user" ut []
  have h2 := appendMessage_eq_ok (findConv_appendStore h (appendedMsg s "user" ut []))
    "assistant" asst acts
  simp only [persistTurn, hsome, if_pos, h1, h2]
  rfl

theorem persistTurn_listMessages {s : Store} {owner cid : String}
    {c : StoredConversation} (h : s.findConv cid owner = some c)
    (ut asst : String) (acts : List String) :
    (persistTurn s owner (some cid) ut asst acts).2 = cid ∧
    (persistTurn s owner (some cid) ut asst acts).1.listMessages cid owner =
      .ok (c.msgs ++
        [appendedMsg s "user" ut [],
         { id := s.clock + 1, role := "assistant", text := asst
           actions := acts, created_at := s.clock + 1 }]) := by
  rw [persistTurn_existing h ut asst acts]
  refine ⟨rfl, ?_⟩
  have h1 := findConv_appendStore h (appendedMsg s "user" ut [])
  have h2 := listMessages_appendStore h1
    { id := s.clock + 1, role := "assistant", text := asst
      actions := acts, created_at := s.clock + 1 }
  rw [h2]
  simp [appendUpd]

theorem findConv_deleted {s : Store} {cid owner : String} {s' : Store}
    (h : s.deleteConversation cid owner = .ok s') :
    s'.findConv cid owner = none := by
  rcases hfind : s.findConv cid owner with _ | c
  · simp only [Store.deleteConversation, hfind] at h
    exact Except.noConfusion h
  · simp only [Store.deleteConversation, hfind, Except.ok.injEq] at h
    subst h
    simp only [Store.findConv, List.find?_eq_none]
    intro x hx
    rcases List.mem_filter.1 hx with ⟨_, hpx⟩
    simp only [Bool.not_eq_true'] at hpx
    simp [hpx]

theorem deleteConversation_subset {s : Store} {cid owner : String} {s' : Store}
    (h : s.deleteConversation cid owner = .ok s') :
    ∀ c ∈ s'.convs, c ∈ s.convs := by
  rcases hfind : s.findConv cid owner with _ | c
  · simp only [Store.deleteConversation, hfind] at h
    exact Except.noConfusion h
  · simp only [Store.deleteConversation, hfind, Except.ok.injEq] at h
    subst h
    intro x hx
    exact (List.mem_filter.1 hx).1

theorem attemptCall_const_transient {e : String} {o : Nat → CallOutcome}
    (h : ∀ i, o i = .transient e) :
    ∀ r i, attemptCall o r i = .transient e
  | 0, i => h i
  | r + 1, i => by
    simp only [attemptCall, h i]
    exact attemptCall_const_transient h r (i + 1)

theorem dispatch_length (intent : Intent)
    (oracle : Capability → Nat → CallOutcome) :
    (dispatch intent oracle).length = intent.services.length := by
  simp [dispatch]

/-- C7: `completeAuthorization` and `revoke` are idempotent — repeating
completion with the same provider response yields the same resulting
AuthStatus, and revoking an already-revoked session is a no-op (revoking
twice equals revoking once); the client's logout reset behaves the same
way. -/
theorem C7_auth_mutators_idempotent :
    (∀ (a : AuthStatus) (r : ProviderResponse),
      completeAuthorization (completeAuthorization a r) r =
        completeAuthorization a r)
    ∧ (∀ a : AuthStatus, revoke (revoke a) = revoke a)
    ∧ (∀ s : ClientState, logoutClient (logoutClient s) = logoutClient s) :=
  ⟨fun _ _ => rfl, fun _ => rfl, fun _ => rfl⟩

/-- C8: when the input text is empty after trimming or a query request is
already in flight, `sendMessage` performs no network request and leaves the
client state (messages, input, and everything else) unchanged. -/
theorem C8_sendMessage_guard (s : ClientState) (now : String)
    (outcome : FetchOutcome) (h : jsTrim s.input = "" ∨ s.loading = true) :
    sendMessage s now outcome = (s, none) := by
  have h' : jsTrim s.input = "" ∨ s.loading := h
  simp only [sendMessage, if_pos h']

theorem C8_witness :
    sendMessage
      { messages := [], input := "   ", loading := false
        authStatus := initialAuthStatus, conversations := []
        currentConversationId := none } "1" (.networkError "x") =
      ({ messages := [], input := "   ", loading := false
         authStatus := initialAuthStatus, conversations := []
         currentConversationId := none }, none) :=
  C8_sendMessage_guard _ "1" _ (Or.inl (by decide))

/-- C10: the client's `deleteConversation` mutates state only on a successful
response: a non-ok response or a thrown error leaves the conversation list,
message list and current conversation id unchanged; on success the
conversation is removed from the list and, when it was the current one, the
message view is cleared and the current id set to null. -/
theorem C10_deleteConversation_client (s : ClientState) (cid : String) :
    (∀ data, (deleteConversationClient s cid (.response false data)).1 = s)
    ∧ (∀ msg, (deleteConversationClient s cid (.networkError msg)).1 = s)
    ∧ (∀ data,
        ((deleteConversationClient s cid (.response true data)).1.conversations
          = s.conversations.filter (fun c => c.id != cid))
        ∧ (s.currentConversationId = some cid →
            (deleteConversationClient s cid (.response true data)).1.messages = []
            ∧ (deleteConversationClient s cid
                (.response true data)).1.currentConversationId = none)
        ∧ (s.currentConversationId ≠ some cid →
            (deleteConversationClient s cid (.response true data)).1.messages
              = s.messages
            ∧ (deleteConversationClient s cid
                (.response true data)).1.currentConversationId
              = s.currentConversationId)) := by
  refine ⟨fun _ => rfl, fun _ => rfl, fun data => ?_⟩
  by_cases h : s.currentConversationId = some cid
  · refine ⟨?_, fun _ => ⟨?_, ?_⟩, fun hne => absurd h hne⟩ <;>
      simp [deleteConversationClient, h]
  · refine ⟨?_, fun heq => absurd heq h, fun _ => ⟨?_, ?_⟩⟩ <;>
      simp [deleteConversationClient, h]

theorem C10_witness :
    ((deleteConversationClient
        { messages := [{ id := "m1", role := "user", text := "hi"
                         actions := none, intent := none }]
          input := "", loading := false, authStatus := initialAuthStatus
          conversations := [{ id := "a", name := "A", created_at := "t"
                              updated_at := none }]
          currentConversationId := some "a" }
        "a" (.response true .null)).1.messages = []) ∧
    ((deleteConversationClient
        { messages := [{ id := "m1", role := "user", text := "hi"
                         actions := none, intent := none }]
          input := "", loading := false, authStatus := initialAuthStatus
          conversations := [{ id := "a", name := "A", created_at := "t"
                              updated_at := none }]
          currentConversationId := some "a" }
        "a" (.response true .null)).1.currentConversationId = none) :=
  (C10_deleteConversation_client _ "a").2.2 Json.null |>.2.1 rfl

/-- C9: on a successful query response the client adopts the returned
conversation id only when no conversation was current; once a (nonempty)
conversation id is set, a query response never replaces it. -/
theorem C9_conversation_id_adoption (s : ClientState) (now : String)
    (data : Json) :
    (∀ id, s.currentConversationId = some id → id ≠ "" →
      (sendMessage s now (.response true data)).1.currentConversationId
        = some id)
    ∧ (jsTrim s.input ≠ "" → s.loading = false →
        s.currentConversationId = none →
        (data.getField "conversation_id").truthy = true →
        (sendMessage s now (.response true data)).1.currentConversationId
          = some (data.getField "conversation_id").display) := by
  constructor
  · intro id hid hne
    by_cases hg : jsTrim s.input = "" ∨ s.loading
    · simp only [sendMessage, if_pos hg]
      exact hid
    · have htr : optStrTruthy s.currentConversationId = true := by
        rw [hid]
        simp [optStrTruthy, hne]
      simp [sendMessage, if_neg hg, hid, optStrTruthy, hne]
  · intro h1 h2 h3 h4
    have hg : ¬ (jsTrim s.input = "" ∨ s.loading) := by
      rintro (h | h)
      · exact h1 h
      · rw [h2] at h
        exact Bool.noConfusion h
    simp [sendMessage, if_neg hg, h3, h4, optStrTruthy]

theorem C9_witness :
    ClientState.currentConversationId (Prod.fst (sendMessage
        ⟨[], "hi", false, initialAuthStatus, [], some "c7"⟩ "1"
        (.response true (.obj [("conversation_id", .str "c9")]))))
      = some "c7" ∧
    ClientState.currentConversationId (Prod.fst (sendMessage
        ⟨[], "hi", false, initialAuthStatus, [], none⟩ "1"
        (.response true (.obj [("conversation_id", .str "c9")]))))
      = some "c9" :=
  ⟨(C9_conversation_id_adoption ⟨[], "hi", false, initialAuthStatus, [], some "c7"⟩
      "1" (.obj [("conversation_id", .str "c9")])).1 "c7" rfl (by decide),
   (C9_conversation_id_adoption ⟨[], "hi", false, initialAuthStatus, [], none⟩
      "1" (.obj [("conversation_id", .str "c9")])).2 (by decide) rfl rfl rfl⟩

theorem parseIntent_congr {d d' : Json}
    (h : d.getField "intent" = d'.getField "intent") :
    parseIntent d = parseIntent d' := by
  unfold parseIntent
  rw [h]

theorem requiresAuthFlag_congr {d d' : Json}
    (h1 : d.getField "detail" = d'.getField "detail")
    (h2 : d.getField "requires_auth" = d'.getField "requires_auth") :
    requiresAuthFlag d = requiresAuthFlag d' := by
  unfold requiresAuthFlag
  rw [h1, h2]

theorem authPromptText_congr {d d' : Json}
    (h1 : d.getField "detail" = d'.getField "detail")
    (h2 : d.getField "message" = d'.getField "message") :
    authPromptText d = authPromptText d' := by
  unfold authPromptText
  rw [h1, h2]

theorem requestFailedText_congr {d d' : Json}
    (h1 : d.getField "detail" = d'.getField "detail") :
    requestFailedText d = requestFailedText d' := by
  unfold requestFailedText
  rw [h1]

/-- C2 counterexample: the client posts queries to `/v1/query`, not `/query`,
with body field `conversation_id`, not `conversationId`; and a 4xx body using
the claimed field name `requiresAuth` is not recognized as an auth prompt —
the client renders it as a hard error message instead. -/
theorem C2_counterexample :
    (sendMessage ⟨[], "hi", false, initialAuthStatus, [], none⟩ "1"
        (.networkError "x")).2 =
      some { method := "POST", path := "/v1/query"
             body := some (.obj [("query", .str "hi"),
                                 ("conversation_id", .null)]) }
    ∧ "/v1/query" ≠ "/query"
    ∧ (Prod.fst (sendMessage ⟨[], "hi", false, initialAuthStatus, [], none⟩ "1"
        (.response false (.obj [("detail", .obj
          [("requiresAuth", .bool true),
           ("message", .str "connect")])])))).messages.map ClientMessage.text =
      ["hi", "Error: [object Object]"] :=
  ⟨rfl, by decide, rfl⟩

/-- C2 amended: the client posts to `/v1/query` with body
`{query, conversation_id}`; its 200 handling depends only on the response
fields `response`, `actions_taken`, `intent` and `conversation_id`, and its
4xx handling only on `detail`, `requires_auth` and `message` (snake_case
names, `/v1` prefix — not the claimed `/query`, `conversationId`,
`actionsTaken`, `requiresAuth`). -/
theorem C2_amended_client_contract (s : ClientState) (now : String)
    (outcome : FetchOutcome) (h1 : jsTrim s.input ≠ "")
    (h2 : s.loading = false) :
    (sendMessage s now outcome).2 =
      some { method := "POST", path := "/v1/query"
             body := some (.obj [("query", .str s.input),
               ("conversation_id", optStrToJson s.currentConversationId)]) }
    ∧ (∀ d d', d.getField "response" = d'.getField "response" →
        d.getField "actions_taken" = d'.getField "actions_taken" →
        d.getField "intent" = d'.getField "intent" →
        d.getField "conversation_id" = d'.getField "conversation_id" →
        sendMessage s now (.response true d) = sendMessage s now (.response true d'))
    ∧ (∀ d d', d.getField "detail" = d'.getField "detail" →
        d.getField "requires_auth" = d'.getField "requires_auth" →
        d.getField "message" = d'.getField "message" →
        sendMessage s now (.response false d)
          = sendMessage s now (.response false d')) := by
  have hg : ¬ (jsTrim s.input = "" ∨ s.loading) := by
    rintro (h | h)
    · exact h1 h
    · rw [h2] at h
      exact Bool.noConfusion h
  refine ⟨?_, ?_, ?_⟩
  · cases outcome <;> simp [sendMessage, if_neg hg]
  · intro d d' e1 e2 e3 e4
    simp [sendMessage, if_neg hg, e1, e2, e4, parseIntent_congr e3]
  · intro d d' e1 e2 e3
    simp [sendMessage, if_neg hg, requiresAuthFlag_congr e1 e2,
      authPromptText_congr e1 e3, requestFailedText_congr e1]

theorem C2_amended_witness :
    (sendMessage ⟨[], "hi", false, initialAuthStatus, [], none⟩ "1"
        (.networkError "x")).2 =
      some { method := "POST", path := "/v1/query"
             body := some (.obj [("query", .str "hi"),
                                 ("conversation_id", optStrToJson none)]) } :=
  (C2_amended_client_contract ⟨[], "hi", false, initialAuthStatus, [], none⟩
    "1" (.networkError "x") (by decide) rfl).1

/-- C3 counterexample: the auth-status request goes to `/v1/auth/status`, not
`/auth/status`, and a payload using the claimed names `mail`, `storage` and
`userEmail` is not consumed by the client — the mail and storage grants and
the email are lost, because the client reads `gmail`, `drive` and
`user_email`. -/
theorem C3_counterexample :
    authStatusRequest.path ≠ "/auth/status"
    ∧ authStatusOfJson (.obj
        [("connected", .bool true),
         ("services", .obj [("mail", .bool true), ("calendar", .bool true),
                            ("storage", .bool true)]),
         ("userEmail", .str "user@example.com")]) =
      { connected := true, gmail := false, calendar := true, drive := false
        user_email := none } :=
  ⟨by decide, rfl⟩

/-- C3 amended: `GET /v1/auth/status` yields
`{connected, services: {gmail, calendar, drive}, user_email}` and the client
consumes exactly these capability and field names (not the claimed `mail`,
`storage`, `userEmail`). -/
theorem C3_amended_auth_status_contract (b g c d : Bool) (e : String) :
    authStatusRequest = { method := "GET", path := "/v1/auth/status"
                          body := none }
    ∧ authStatusOfJson (.obj
        [("connected", .bool b),
         ("services", .obj [("gmail", .bool g), ("calendar", .bool c),
                            ("drive", .bool d)]),
         ("user_email", .str e)]) =
      { connected := b, gmail := g, calendar := c, drive := d
        user_email := some e }
    ∧ ∀ (s : ClientState) (data : Json),
        (checkAuthStatus s (.response true data)).1.authStatus
          = authStatusOfJson data :=
  ⟨rfl, rfl, fun _ _ => rfl⟩

/-- C1: when the resolved intent requires a capability not authorized in the
session's AuthStatus, the orchestrator short-circuits — the store is
unchanged (no user or assistant message persisted for any conversation), no
dispatch occurs, and the response carries requiresAuth = true; the client
renders such a requires-auth 4xx as an appended assistant prompt message,
not a hard failure. -/
theorem C1_auth_short_circuit (s : Store) (auth : AuthStatus)
    (owner query : String) (cid? : Option String) (intent : Intent)
    (oracle : Capability → Nat → CallOutcome) (missing : List Capability)
    (h : requireCapabilities auth intent.services = .error missing) :
    (processQuery s auth owner query cid? intent oracle).store = s
    ∧ (processQuery s auth owner query cid? intent oracle).dispatched = none
    ∧ (processQuery s auth owner query cid? intent
        oracle).response.requiresAuth = true
    ∧ (∀ (cs : ClientState) (now : String) (data : Json),
        jsTrim cs.input ≠ "" → cs.loading = false →
        requiresAuthFlag data = true →
        (Prod.fst (sendMessage cs now (.response false data))).messages =
          cs.messages ++
            [{ id := now, role := "user", text := cs.input
               actions := none, intent := none },
             { id := now, role := "assistant", text := authPromptText data
               actions := none, intent := none }]) := by
  refine ⟨by simp [processQuery, h], by simp [processQuery, h],
    by simp [processQuery, h], ?_⟩
  intro cs now data hi hl hra
  have hg : ¬ (jsTrim cs.input = "" ∨ cs.loading) := by
    rintro (hx | hx)
    · exact hi hx
    · rw [hl] at hx
      exact Bool.noConfusion hx
  simp [sendMessage, if_neg hg, hra]

theorem C1_witness :
    (processQuery ⟨[], 0⟩ ⟨false, false, false, false, none⟩ "u"
        "show my calendar" none ⟨"calendar_query", [.calendar], [], 1⟩
        (fun _ _ => .ok "listed")).store = ⟨[], 0⟩ ∧
    (processQuery ⟨[], 0⟩ ⟨false, false, false, false, none⟩ "u"
        "show my calendar" none ⟨"calendar_query", [.calendar], [], 1⟩
        (fun _ _ => .ok "listed")).response.requiresAuth = true ∧
    (Prod.fst (sendMessage
        ⟨[], "show my calendar", false, initialAuthStatus, [], none⟩ "1"
        (.response false (.obj [("detail", .obj
          [("requires_auth", .bool true),
           ("message", .str "Please connect")])])))).messages =
      [⟨"1", "user", "show my calendar", none, none⟩,
       ⟨"1", "assistant", "Please connect", none, none⟩] :=
  have thm := C1_auth_short_circuit ⟨[], 0⟩ ⟨false, false, false, false, none⟩
    "u" "show my calendar" none ⟨"calendar_query", [.calendar], [], 1⟩
    (fun _ _ => .ok "listed") [.calendar] rfl
  ⟨thm.1, thm.2.2.1,
   thm.2.2.2 ⟨[], "show my calendar", false, initialAuthStatus, [], none⟩ "1"
     (.obj [("detail", .obj [("requires_auth", .bool true),
       ("message", .str "Please connect")])]) (by decide) rfl rfl⟩

/-- C4: for a conversation in a well-formed store, listing returns the
messages in exactly append order and nondecreasing in creation timestamp;
appending extends the history at the end without mutating any prior message,
preserves well-formedness, and the client stores (and hence renders) a
returned message list in its returned order. -/
theorem C4_message_order (s : Store) (cid owner role text : String)
    (actions : List String) (c : StoredConversation)
    (hWF : s.WF) (h : s.findConv cid owner = some c) :
    s.listMessages cid owner = .ok c.msgs
    ∧ s.appendMessage cid owner role text actions =
        .ok (appendStore s cid owner (appendedMsg s role text actions),
             appendedMsg s role text actions)
    ∧ (appendStore s cid owner
        (appendedMsg s role text actions)).listMessages cid owner =
        .ok (c.msgs ++ [appendedMsg s role text actions])
    ∧ List.Chain' (fun a b => a.created_at ≤ b.created_at)
        (c.msgs ++ [appendedMsg s role text actions])
    ∧ (appendStore s cid owner (appendedMsg s role text actions)).WF
    ∧ (∀ (cs : ClientState) (conversationId : String) (data : Json)
        (xs : List Json), data.getField "messages" = .arr xs →
        (Prod.fst (loadConversationMessages cs conversationId
          (.response true data))).messages = xs.map parseClientMessage) := by
  have hc : convWF s.clock c := hWF c (List.mem_of_find?_eq_some h)
  refine ⟨by simp [Store.listMessages, h],
    appendMessage_eq_ok h role text actions,
    listMessages_appendStore h _,
    (convWF_append hc _ rfl).2,
    WF_appendStore hWF cid owner rfl, ?_⟩
  intro cs conversationId data xs hx
  simp [loadConversationMessages, parseMessages, hx]

theorem C4_witness :
    Store.listMessages
      (appendStore ⟨[⟨"a", "u", "A", [], 0, 0⟩], 1⟩ "a" "u"
        (appendedMsg ⟨[⟨"a", "u", "A", [], 0, 0⟩], 1⟩ "user" "hi" [])) "a" "u"
      = .ok ([] ++ [appendedMsg ⟨[⟨"a", "u", "A", [], 0, 0⟩], 1⟩ "user" "hi" []])
    ∧ List.Chain' (fun a b => a.created_at ≤ b.created_at)
        ([] ++ [appendedMsg ⟨[⟨"a", "u", "A", [], 0, 0⟩], 1⟩ "user" "hi" []]) :=
  have hWF : Store.WF ⟨[⟨"a", "u", "A", [], 0, 0⟩], 1⟩ := by
    intro c hc
    simp only [List.mem_singleton] at hc
    subst hc
    exact ⟨fun m hm => by simp at hm, List.chain'_nil⟩
  have thm := C4_message_order ⟨[⟨"a", "u", "A", [], 0, 0⟩], 1⟩ "a" "u" "user"
    "hi" [] ⟨"a", "u", "A", [], 0, 0⟩ hWF rfl
  ⟨thm.2.2.1, thm.2.2.2.1⟩

/-- C5: deleting a conversation removes it and all of its messages in one
atomic state transition: afterwards listing its messages yields not-found,
the conversation can no longer be found, and every conversation still present
was present before — no partially-deleted (emptied but existing) conversation
can be observed. -/
theorem C5_delete_atomic (s : Store) (cid owner : String) (s' : Store)
    (h : s.deleteConversation cid owner = .ok s') :
    s'.listMessages cid owner = .error .notFound
    ∧ s'.findConv cid owner = none
    ∧ (∀ c ∈ s'.convs, c ∈ s.convs) := by
  have hf := findConv_deleted h
  exact ⟨by simp [Store.listMessages, hf], hf, deleteConversation_subset h⟩

theorem C5_witness :
    Store.listMessages ⟨[], 2⟩ "a" "u" = .error .notFound :=
  (C5_delete_atomic
    ⟨[⟨"a", "u", "A", [⟨1, "user", "hi", [], 1⟩], 0, 1⟩], 2⟩ "a" "u"
    ⟨[], 2⟩ rfl).1

/-- A call oracle where the mail call succeeds immediately and the calendar
call fails transiently on every attempt, exercising the dispatcher's
partial-failure path. -/
def splitOracle : Capability → Nat → CallOutcome
  | .mail, _ => .ok "sent"
  | .calendar, _ => .transient "network timeout"
  | .storage, _ => .ok "noop"

/-- C6: dispatch returns one ActionResult per target capability and never
fails wholesale: for an intent over capabilities {mail, calendar} where the
mail call succeeds and the calendar call fails transiently on every attempt
(beyond retry), the result list is exactly one success entry for mail and one
failure entry for calendar, and when authorization is sufficient the turn is
still persisted (the user and assistant messages are appended to the
conversation). -/
theorem C6_partial_failure (intent : Intent)
    (oracle : Capability → Nat → CallOutcome) (descA errB : String)
    (auth : AuthStatus) (s : Store) (owner query cid : String)
    (c : StoredConversation)
    (hsvc : intent.services = [.mail, .calendar])
    (hA : ∀ i, oracle .mail i = .ok descA)
    (hB : ∀ i, oracle .calendar i = .transient errB)
    (hauth : requireCapabilities auth intent.services = .ok ())
    (hconv : s.findConv cid owner = some c) :
    (∀ (intent' : Intent) (oracle' : Capability → Nat → CallOutcome),
      (dispatch intent' oracle').length = intent'.services.length)
    ∧ dispatch intent oracle =
        [resultOf .mail (.ok descA), resultOf .calendar (.transient errB)]
    ∧ (dispatch intent oracle).filter (fun r => r.success) =
        [resultOf .mail (.ok descA)]
    ∧ (dispatch intent oracle).filter (fun r => !r.success) =
        [resultOf .calendar (.transient errB)]
    ∧ (processQuery s auth owner query (some cid) intent
        oracle).response.requiresAuth = false
    ∧ (processQuery s auth owner query (some cid) intent
        oracle).store.listMessages cid owner =
        .ok (c.msgs ++
          [appendedMsg s "user" query [],
           { id := s.clock + 1, role := "assistant"
             text := composeResponse (dispatch intent oracle)
             actions := (dispatch intent oracle).map ActionResult.description
             created_at := s.clock + 1 }]) := by
  have hdisp : dispatch intent oracle =
      [resultOf .mail (.ok descA), resultOf .calendar (.transient errB)] := by
    rw [dispatch, hsvc]
    simp only [List.map_cons, List.map_nil]
    rw [attemptCall_const_transient hB maxRetries 0]
    rw [show attemptCall (oracle .mail) maxRetries 0 = .ok descA by
      simp [maxRetries, attemptCall, hA 0]]
  have hne : intent.services.isEmpty = false := by rw [hsvc]; rfl
  refine ⟨dispatch_length, hdisp, ?_, ?_, ?_, ?_⟩
  · rw [hdisp]
    rfl
  · rw [hdisp]
    rfl
  · simp [processQuery, hauth, hne]
  · have hpt := (persistTurn_listMessages hconv query
      (composeResponse (dispatch intent oracle))
      ((dispatch intent oracle).map ActionResult.description)).2
    simp only [processQuery, hauth, hne, Bool.false_eq_true, if_false]
    exact hpt

theorem C6_witness :
    dispatch ⟨"multi", [.mail, .calendar], [], 1⟩ splitOracle =
      [resultOf .mail (.ok "sent"),
       resultOf .calendar (.transient "network timeout")]
    ∧ (processQuery ⟨[⟨"a", "u", "A", [], 0, 0⟩], 1⟩
        ⟨true, true, true, true, some "e"⟩ "u" "send mail and check calendar"
        (some "a") ⟨"multi", [.mail, .calendar], [], 1⟩
        splitOracle).store.listMessages "a" "u" =
      .ok ([] ++
        [appendedMsg ⟨[⟨"a", "u", "A", [], 0, 0⟩], 1⟩ "user"
           "send mail and check calendar" [],
         { id := 2, role := "assistant"
           text := composeResponse (dispatch ⟨"multi", [.mail, .calendar], [], 1⟩ splitOracle)
           actions := (dispatch ⟨"multi", [.mail, .calendar], [], 1⟩
             splitOracle).map ActionResult.description
           created_at := 2 }]) :=
  have thm := C6_partial_failure ⟨"multi", [.mail, .calendar], [], 1⟩
    splitOracle "sent" "network timeout" ⟨true, true, true, true, some "e"⟩
    ⟨[⟨"a", "u", "A", [], 0, 0⟩], 1⟩ "u" "send mail and check calendar" "a"
    ⟨"a", "u", "A", [], 0, 0⟩ rfl (fun _ => rfl) (fun _ => rfl) rfl rfl
  ⟨thm.2.1, thm.2.2.2.2.2⟩
